import Mathlib

/-!
Shallow embedding of `capture_final.py` (IMIP photometric capture rig).

The script drives an 8×8 LED grid and a camera: an interactive command loop
mutates session configuration (brightness, active LED count, exposure, color,
destination folder) and a `capture` command runs the capture sequence, which
lights one LED at a time, sleeps, captures an image per coordinate, and
restores the focus indicator.

Hardware and OS effects are modelled as event traces and explicit state:
* the LED strip is a buffer of 64 colors plus a brightness; `strip.show()`
  commits the buffer (modelled by the `Event.commit` trace element and the
  `commitsFrom` evaluator);
* the camera's `capture_file` is an event; a failure oracle
  `camFail : Nat × Nat → Bool` says at which coordinate the camera raises;
* the filesystem is the list of existing directories and written files;
* `datetime.now()` is an explicit `DateTime` argument;
* Python strings are Lean `String`s with hand-rolled models of
  `str.strip`, `str.lower`, `str.split`, and `int(...)` (ASCII; Python's
  extra unicode whitespace/case folding and underscore digit separators do
  not occur in the command protocol).
-/

namespace CaptureModel

/-- RGB triple as built by `rpi_ws281x.Color(r, g, b)`. -/
structure Color where
  r : Nat
  g : Nat
  b : Nat
deriving DecidableEq, Repr

/-- `PHYSICAL_GRID_SIZE = 8`. -/
def PHYSICAL_GRID_SIZE : Nat := 8

/-- `FOCUS_LED_INDEX = 27` (the script's comment: center of 8x8). -/
def FOCUS_LED_INDEX : Nat := 27

/-- `LED_COUNT = PHYSICAL_GRID_SIZE ** 2`. -/
def LED_COUNT : Nat := PHYSICAL_GRID_SIZE ^ 2

def DEFAULT_BRIGHTNESS : Nat := 100

def DEFAULT_LED_GRID : Nat := 4

def DEFAULT_EXPOSURE : Int := 10000

def DEFAULT_COLOR : String := "green"

/-- `base_path = "/home/fpm/camera_capture2"`. -/
def base_path : String := "/home/fpm/camera_capture2"

/-- `index(row, col) = row * PHYSICAL_GRID_SIZE + col`. -/
def index (row col : Nat) : Nat := row * PHYSICAL_GRID_SIZE + col

def offColor : Color := ⟨0, 0, 0⟩

/-- Python `str.lower` restricted to ASCII: maps A–Z to a–z. -/
def lowerChar (c : Char) : Char :=
  if 65 ≤ c.toNat ∧ c.toNat ≤ 90 then Char.ofNat (c.toNat + 32) else c

/-- Python `str.lower` on a whole string (ASCII model). -/
def pyLower (s : String) : String := String.mk (s.data.map lowerChar)

/-- `get_color(name)`: dictionary lookup on `name.lower()` with default white. -/
def get_color (name : String) : Color :=
  let nm := pyLower name
  if nm = "white" then ⟨255, 255, 255⟩
  else if nm = "red" then ⟨255, 0, 0⟩
  else if nm = "green" then ⟨0, 255, 0⟩
  else if nm = "blue" then ⟨0, 0, 255⟩
  else if nm = "off" then ⟨0, 0, 0⟩
  else ⟨255, 255, 255⟩

/-- One hardware/OS effect of the script, in program order. -/
inductive Event where
  /-- `strip.setBrightness(b)` (takes effect at the next commit). -/
  | setBrightness (b : Nat) : Event
  /-- `strip.setPixelColor(idx, c)` (buffered until the next commit). -/
  | setPixel (idx : Nat) (c : Color) : Event
  /-- `strip.show()`: commit the buffered pixel state to the hardware. -/
  | commit : Event
  /-- `time.sleep` of the given number of milliseconds. -/
  | sleepMs (ms : Nat) : Event
  /-- `picam2.capture_file(path)`. -/
  | captureFile (path : String) : Event
deriving DecidableEq, Repr

/-- The all-off pixel buffer (64 LEDs). -/
def allOff : List Color := List.replicate LED_COUNT offColor

/-- `turn_off_all_leds()`: set every pixel off, then `show()`. -/
def turn_off_all_leds_events : List Event :=
  ((List.range LED_COUNT).map (fun i => Event.setPixel i (get_color "off"))) ++ [Event.commit]

/-- `focus_led_on()`: all off, set brightness, light `FOCUS_LED_INDEX` at the
current color, commit. -/
def focus_led_on_events (color : String) (brightness : Nat) : List Event :=
  turn_off_all_leds_events ++
    [Event.setBrightness brightness,
     Event.setPixel FOCUS_LED_INDEX (get_color color),
     Event.commit]

/-- The mutable session configuration (the script's globals). -/
structure Config where
  brightness : Nat
  ledCount : Nat
  exposure : Int
  color : String
  folderName : Option String
deriving DecidableEq, Repr

/-- The configuration at script start. -/
def initialConfig : Config :=
  { brightness := DEFAULT_BRIGHTNESS, ledCount := DEFAULT_LED_GRID,
    exposure := DEFAULT_EXPOSURE, color := DEFAULT_COLOR, folderName := none }

/-- Local time as observed through `datetime.now()`. -/
structure DateTime where
  year : Nat
  month : Nat
  day : Nat
  hour : Nat
  minute : Nat
  second : Nat
deriving DecidableEq, Repr

/-- Zero-pad a decimal rendering to width `w` (as `strftime` does). -/
def padZero (w : Nat) (n : Nat) : String :=
  String.mk (List.replicate (w - (toString n).length) '0') ++ toString n

/-- `datetime.now().strftime("%Y-%m-%d_%H-%M-%S")`. -/
def timestamp (t : DateTime) : String :=
  padZero 4 t.year ++ "-" ++ padZero 2 t.month ++ "-" ++ padZero 2 t.day ++ "_" ++
    padZero 2 t.hour ++ "-" ++ padZero 2 t.minute ++ "-" ++ padZero 2 t.second

/-- `os.path.join(a, b)` for the shapes the script uses: an absolute second
component discards the first; otherwise they are joined with a single `/`
unless the first already ends in one. -/
def os_path_join (a b : String) : String :=
  if b.data.head? = some '/' then b
  else if a = "" then b
  else if a.data.getLast? = some '/' then a ++ b
  else a ++ "/" ++ b

/-- Lines 61–65: the destination directory, `base_path` joined with the
user-chosen folder name if one is set (Python truthiness: `None` and the
empty string fall through to the timestamp). -/
def resolveSaveDir (folderName : Option String) (now : DateTime) : String :=
  match folderName with
  | some s => if s ≠ "" then os_path_join base_path s else os_path_join base_path (timestamp now)
  | none => os_path_join base_path (timestamp now)

/-- `os.makedirs(d, exist_ok=True)` on a filesystem modelled as the list of
existing directories: creates `d` if absent, never an error. -/
def makedirs (dirs : List String) (d : String) : List String :=
  if d ∈ dirs then dirs else d :: dirs

/-- The f-string `f"led_r{row}_c{col}.jpg"` of line 80. -/
def fileSuffix (row col : Nat) : String :=
  "led_r" ++ toString row ++ "_c" ++ toString col ++ ".jpg"

/-- Line 80: the image path `os.path.join(save_dir, f"led_r{row}_c{col}.jpg")`. -/
def fileName (saveDir : String) (row col : Nat) : String :=
  os_path_join saveDir (fileSuffix row col)

/-- The integer square root, written so that it reduces in the kernel: the
last `k ≤ n` with `k * k ≤ n`. `isqrt_eq_sqrt` proves it is `Nat.sqrt`.
It models Python's `int(val ** 0.5)`, which is the exact integer square
root on every value the script can store (all ≤ 64). -/
def isqrt (n : Nat) : Nat :=
  (((List.range (n + 1)).filter (fun k => k * k ≤ n)).getLast?).getD 0

/-- Filtering `range n` by a `≤ m` cutoff truncates it. -/
theorem filter_le_range (n m : Nat) :
    (List.range n).filter (fun k => decide (k ≤ m)) = List.range (min (m + 1) n) := by
  induction n with
  | zero => simp
  | succ n ih =>
    rw [List.range_succ, List.filter_append, ih]
    by_cases h : n ≤ m
    · have h1 : min (m + 1) n = n := by omega
      have h2 : min (m + 1) (n + 1) = n + 1 := by omega
      simp [h1, h2, h, List.range_succ]
    · have h1 : min (m + 1) n = m + 1 := by omega
      have h2 : min (m + 1) (n + 1) = m + 1 := by omega
      simp [h1, h2, h]

/-- `isqrt` agrees with Mathlib's `Nat.sqrt`. -/
theorem isqrt_eq_sqrt (n : Nat) : isqrt n = Nat.sqrt n := by
  have hcong : (List.range (n + 1)).filter (fun k => k * k ≤ n) =
      (List.range (n + 1)).filter (fun k => decide (k ≤ Nat.sqrt n)) := by
    apply List.filter_congr
    intro k _
    by_cases h : k * k ≤ n
    · simp [h, Nat.le_sqrt.mpr h]
    · have : ¬ k ≤ Nat.sqrt n := fun hk => h (Nat.le_sqrt.mp hk)
      simp [h, this]
  have hmin : min (Nat.sqrt n + 1) (n + 1) = Nat.sqrt n + 1 := by
    have := Nat.sqrt_le_self n
    omega
  rw [isqrt, hcong, filter_le_range, hmin, List.range_succ, List.getLast?_concat]
  rfl

/-- Lines 57–58 and 70–71: the ordered (row, col) coordinates of one capture
run; `n = int(count ** 0.5)` (exact integer square root on every count the
script can store, all ≤ 64) and `start = (8 - n) // 2`. -/
def planCoords (count : Nat) : List (Nat × Nat) :=
  let n := isqrt count
  let start := (PHYSICAL_GRID_SIZE - n) / 2
  ((List.range n).map (fun i => start + i)).flatMap
    (fun row => ((List.range n).map (fun j => start + j)).map (fun col => (row, col)))

/-- Line 73's progress message. -/
def lightingMsg (rc : Nat × Nat) : String :=
  "Lighting LED at row " ++ toString rc.1 ++ ", col " ++ toString rc.2 ++
    " (index " ++ toString (index rc.1 rc.2) ++ ")"

/-- Line 82's progress message. -/
def capturedMsg (saveDir : String) (rc : Nat × Nat) : String :=
  "Captured " ++ fileName saveDir rc.1 rc.2

/-- Lines 75–78: set brightness, light the coordinate, commit, settle 300 ms. -/
def lightEvents (cfg : Config) (rc : Nat × Nat) : List Event :=
  [Event.setBrightness cfg.brightness,
   Event.setPixel (index rc.1 rc.2) (get_color cfg.color),
   Event.commit,
   Event.sleepMs 300]

/-- Lines 80–86: capture the file, turn the coordinate off, commit, cool
down 100 ms. -/
def clearEvents (saveDir : String) (rc : Nat × Nat) : List Event :=
  [Event.captureFile (fileName saveDir rc.1 rc.2),
   Event.setPixel (index rc.1 rc.2) (get_color "off"),
   Event.commit,
   Event.sleepMs 100]

/-- Everything the loop body (lines 70–86) does for one coordinate. -/
def coordBlock (cfg : Config) (saveDir : String) (rc : Nat × Nat) : List Event :=
  lightEvents cfg rc ++ clearEvents saveDir rc

/-- Outcome of the per-coordinate loop: emitted events, files written,
printed lines, and the coordinate whose `capture_file` raised (if any). -/
structure RunResult where
  events : List Event
  files : List String
  output : List String
  failed : Option (Nat × Nat)
deriving DecidableEq, Repr

/-- Lines 70–86 over the whole plan. When `camFail rc` the camera call at
`rc` raises: the LED for `rc` has been lit and committed and the 300 ms
sleep has run, but no file is written and the exception stops the loop. -/
def runCoords (cfg : Config) (saveDir : String) (camFail : Nat × Nat → Bool) :
    List (Nat × Nat) → RunResult
  | [] => ⟨[], [], [], none⟩
  | rc :: rest =>
    if camFail rc then
      ⟨lightEvents cfg rc, [], [lightingMsg rc], some rc⟩
    else
      let r := runCoords cfg saveDir camFail rest
      ⟨lightEvents cfg rc ++ (clearEvents saveDir rc ++ r.events),
       fileName saveDir rc.1 rc.2 :: r.files,
       lightingMsg rc :: capturedMsg saveDir rc :: r.output,
       r.failed⟩

/-- Result of one `capture_sequence()` call. -/
structure CaptureResult where
  events : List Event
  files : List String
  output : List String
  dirs : List String
  failed : Option (Nat × Nat)
deriving DecidableEq, Repr

/-- `capture_sequence()` (lines 55–89): all LEDs off; compute the plan;
resolve and create the destination directory; run the per-coordinate loop;
on success restore the focus indicator. An exception from `capture_file`
propagates, skipping the focus restore. -/
def capture_sequence (cfg : Config) (dirs : List String) (camFail : Nat × Nat → Bool)
    (now : DateTime) : CaptureResult :=
  let saveDir := resolveSaveDir cfg.folderName now
  let dirs2 := makedirs dirs saveDir
  let r := runCoords cfg saveDir camFail (planCoords cfg.ledCount)
  match r.failed with
  | some rc =>
    ⟨turn_off_all_leds_events ++ r.events, r.files,
     ("Saving images to: " ++ saveDir) :: r.output, dirs2, some rc⟩
  | none =>
    ⟨turn_off_all_leds_events ++ (r.events ++ focus_led_on_events cfg.color cfg.brightness),
     r.files,
     ("Saving images to: " ++ saveDir) :: (r.output ++ ["Capture complete."]),
     dirs2, none⟩

/-! ### The interactive command loop (lines 121–190) -/

/-- Drop leading ASCII whitespace from a character list. -/
def dropWS : List Char → List Char
  | [] => []
  | c :: cs => if c.isWhitespace then dropWS cs else c :: cs

/-- Python `str.strip()`: remove leading and trailing whitespace. -/
def pyStrip (s : String) : String :=
  String.mk ((dropWS ((dropWS s.data).reverse)).reverse)

/-- Accumulator pass for `pySplit`: `acc` holds the current token reversed. -/
def splitWS : List Char → List Char → List String
  | [], acc => if acc.isEmpty then [] else [String.mk acc.reverse]
  | c :: cs, acc =>
    if c.isWhitespace then
      if acc.isEmpty then splitWS cs [] else String.mk acc.reverse :: splitWS cs []
    else splitWS cs (c :: acc)

/-- Python `str.split()` with no separator: split on whitespace runs,
discarding empty pieces. -/
def pySplit (s : String) : List String := splitWS s.data []

/-- Python `str.startswith(p)`: prefix test on the characters. -/
def pyStartsWith (s p : String) : Bool := p.data.isPrefixOf s.data

/-- Python `str.split(maxsplit=1)`: first whitespace-delimited token, then
the remainder after the separating whitespace run, kept verbatim. -/
def pySplit1 (s : String) : List String :=
  match dropWS s.data with
  | [] => []
  | c :: cs =>
    let tok := (c :: cs).takeWhile (fun d => !d.isWhitespace)
    let rest := dropWS ((c :: cs).dropWhile (fun d => !d.isWhitespace))
    if rest = [] then [String.mk tok] else [String.mk tok, String.mk rest]

/-- Decimal value of a digit list. -/
def digitsVal (ds : List Char) : Nat :=
  ds.foldl (fun acc c => acc * 10 + (c.toNat - 48)) 0

/-- Python `int(s)` on a whitespace-free token: optional sign then at least
one digit, else `None` standing for the raised `ValueError`. -/
def pyInt (s : String) : Option Int :=
  match s.data with
  | [] => none
  | '-' :: ds =>
    if ds ≠ [] ∧ ds.all Char.isDigit then some (-(digitsVal ds : Int)) else none
  | '+' :: ds =>
    if ds ≠ [] ∧ ds.all Char.isDigit then some (digitsVal ds : Int) else none
  | ds => if ds.all Char.isDigit then some (digitsVal ds : Int) else none

/-- Lines 131–135: the brightness handler once its argument parsed; returns
the new brightness, printed lines, and the strip events of the refresh. -/
def brightness_update (prev : Nat) (color : String) (val : Int) :
    Nat × List String × List Event :=
  if 0 ≤ val ∧ val ≤ 255 then
    (val.toNat, [], focus_led_on_events color val.toNat)
  else
    (prev, ["Brightness must be 0–255."], [])

/-- Lines 142–147: the leds handler once its argument parsed. A negative
`val` makes `val ** 0.5` complex, so `int(...)` raises `TypeError`, caught
by the bare `except` as a usage message. For `val ≥ 0`,
`n = int(val ** 0.5)` is the integer square root and the mutation is kept
only when `n * n == val and n <= PHYSICAL_GRID_SIZE`. -/
def leds_update (prev : Nat) (val : Int) : Nat × List String :=
  if val < 0 then (prev, ["Usage: leds <value>"])
  else
    let n := isqrt val.toNat
    if (n : Int) * n = val ∧ n ≤ PHYSICAL_GRID_SIZE then
      (val.toNat, ["LED grid for capture: " ++ toString val])
    else
      (prev, ["Must be square number ≤ 64."])

/-- Lines 153–159: the exposure handler once its argument parsed. -/
def exposure_update (prev : Int) (val : Int) : Int × List String :=
  if 0 < val then (val, ["Exposure set to " ++ toString val ++ " µs."])
  else (prev, ["Must be positive."])

/-- Lines 165–171: the color handler on its (already lowercased) argument. -/
def color_update (prevColor : String) (brightness : Nat) (val : String) :
    String × List String × List Event :=
  if val = "red" ∨ val = "green" ∨ val = "blue" ∨ val = "white" then
    (val, ["Color set to " ++ val], focus_led_on_events val brightness)
  else
    (prevColor, ["Invalid color."], [])

/-- Observable process state threaded through the loop. -/
structure World where
  cfg : Config
  dirs : List String
  files : List String
deriving DecidableEq, Repr

/-- How one loop iteration ends. -/
inductive Outcome where
  /-- Control returns to the `input("> ")` prompt. -/
  | cont : Outcome
  /-- `break`: the loop ends and the cleanup block runs. -/
  | exitLoop : Outcome
  /-- An exception other than `KeyboardInterrupt` escaped the `try` (the
  loop catches only `KeyboardInterrupt`), so the process terminates with a
  traceback; the cleanup block after the loop never runs. -/
  | crash : Outcome
deriving DecidableEq, Repr

/-- Result of one loop iteration. -/
structure StepResult where
  world : World
  outcome : Outcome
  output : List String
  events : List Event
deriving DecidableEq, Repr

/-- The dispatch chain of the loop body on the normalized input
(lines 125–187). Handlers whose body sits in a `try` with a bare `except`
print a usage message on any parse failure; the `capture` branch has no
handler, so a camera failure escapes as `Outcome.crash`. -/
def dispatch (w : World) (camFail : Nat × Nat → Bool) (now : DateTime)
    (user_input : String) : StepResult :=
  if user_input = "exit" ∨ user_input = "quit" then
    ⟨w, Outcome.exitLoop, [], []⟩
  else if pyStartsWith user_input "brightness" then
    match (pySplit user_input).get? 1 with
    | none => ⟨w, Outcome.cont, ["Usage: brightness <value>"], []⟩
    | some tok =>
      match pyInt tok with
      | none => ⟨w, Outcome.cont, ["Usage: brightness <value>"], []⟩
      | some val =>
        let r := brightness_update w.cfg.brightness w.cfg.color val
        ⟨{ w with cfg := { w.cfg with brightness := r.1 } }, Outcome.cont, r.2.1, r.2.2⟩
  else if pyStartsWith user_input "leds" then
    match (pySplit user_input).get? 1 with
    | none => ⟨w, Outcome.cont, ["Usage: leds <value>"], []⟩
    | some tok =>
      match pyInt tok with
      | none => ⟨w, Outcome.cont, ["Usage: leds <value>"], []⟩
      | some val =>
        let r := leds_update w.cfg.ledCount val
        ⟨{ w with cfg := { w.cfg with ledCount := r.1 } }, Outcome.cont, r.2, []⟩
  else if pyStartsWith user_input "exposure" then
    match (pySplit user_input).get? 1 with
    | none => ⟨w, Outcome.cont, ["Usage: exposure <μs>"], []⟩
    | some tok =>
      match pyInt tok with
      | none => ⟨w, Outcome.cont, ["Usage: exposure <μs>"], []⟩
      | some val =>
        let r := exposure_update w.cfg.exposure val
        ⟨{ w with cfg := { w.cfg with exposure := r.1 } }, Outcome.cont, r.2, []⟩
  else if pyStartsWith user_input "color" then
    match (pySplit user_input).get? 1 with
    | none => ⟨w, Outcome.cont, ["Usage: color <name>"], []⟩
    | some val =>
      let r := color_update w.cfg.color w.cfg.brightness val
      ⟨{ w with cfg := { w.cfg with color := r.1 } }, Outcome.cont, r.2.1, r.2.2⟩
  else if pyStartsWith user_input "folder" then
    match pySplit1 user_input with
    | [_, rest] =>
      if pyStrip rest ≠ "" then
        ⟨{ w with cfg := { w.cfg with folderName := some (pyStrip rest) } }, Outcome.cont,
         ["Folder name set to: " ++ pyStrip rest], []⟩
      else
        ⟨w, Outcome.cont, ["Usage: folder <folder_name>"], []⟩
    | _ => ⟨w, Outcome.cont, ["Usage: folder <folder_name>"], []⟩
  else if user_input = "capture" then
    let r := capture_sequence w.cfg w.dirs camFail now
    ⟨{ w with dirs := r.dirs, files := w.files ++ r.files },
     (match r.failed with | some _ => Outcome.crash | none => Outcome.cont),
     r.output, r.events⟩
  else
    ⟨w, Outcome.cont, ["Unknown command."], []⟩

/-- Line 123 followed by the dispatch chain: one full loop iteration on the
raw line, `user_input = input("> ").strip().lower()`. -/
def loopStep (w : World) (camFail : Nat × Nat → Bool) (now : DateTime)
    (raw : String) : StepResult :=
  dispatch w camFail now (pyLower (pyStrip raw))

/-! ### Claim C1: the capture plan is the centered sub-grid -/

/-- C1: for every valid activeLedCount in {1, 4, 9, 16, 25, 36, 49, 64}, the
capture plan is the centered n-by-n sub-grid with `n = sqrt count` and
`start = (8 - n) / 2` (integer division): exactly `count` distinct
coordinates, each inside the 8×8 grid, characterized by the start/​n bounds,
enumerated in strictly row-major ascending order; count 4 gives exactly
[(3,3),(3,4),(4,3),(4,4)] and count 64 starts at 0 and covers the grid. -/
theorem C1_plan_centered (count : Nat) (h : count ∈ [1, 4, 9, 16, 25, 36, 49, 64]) :
    (planCoords count).length = count ∧
    (planCoords count).Nodup ∧
    (∀ rc ∈ planCoords count, rc.1 < PHYSICAL_GRID_SIZE ∧ rc.2 < PHYSICAL_GRID_SIZE) ∧
    (∀ r < PHYSICAL_GRID_SIZE, ∀ c < PHYSICAL_GRID_SIZE,
      ((r, c) ∈ planCoords count ↔
        (PHYSICAL_GRID_SIZE - isqrt count) / 2 ≤ r ∧
        r < (PHYSICAL_GRID_SIZE - isqrt count) / 2 + isqrt count ∧
        (PHYSICAL_GRID_SIZE - isqrt count) / 2 ≤ c ∧
        c < (PHYSICAL_GRID_SIZE - isqrt count) / 2 + isqrt count)) ∧
    isqrt count * isqrt count = count ∧
    List.Pairwise (fun a b : Nat × Nat => a.1 < b.1 ∨ (a.1 = b.1 ∧ a.2 < b.2))
      (planCoords count) ∧
    planCoords 4 = [(3, 3), (3, 4), (4, 3), (4, 4)] ∧
    (PHYSICAL_GRID_SIZE - isqrt 64) / 2 = 0 ∧
    planCoords 64 = (List.range 8).flatMap (fun r => (List.range 8).map (fun c => (r, c))) := by
  simp only [List.mem_cons, List.not_mem_nil, or_false] at h
  rcases h with rfl | rfl | rfl | rfl | rfl | rfl | rfl | rfl <;> decide

/-- Witness for C1 at the concrete count 4. -/
theorem C1_witness :
    (planCoords 4).length = 4 ∧ planCoords 4 = [(3, 3), (3, 4), (4, 3), (4, 4)] :=
  ⟨(C1_plan_centered 4 (by decide)).1,
   (C1_plan_centered 4 (by decide)).2.2.2.2.2.2.1⟩

/-! ### Claim C2: validation of the `leds` command -/

/-- A fixed reference clock reading for concrete runs. -/
def t0 : DateTime := ⟨2025, 6, 7, 8, 9, 10⟩

/-- C2 counterexample: the claim says a count of 0 is rejected and only a
positive perfect square is ever stored, but `leds 0` passes the check
`n * n == val and n <= 8` (with `n = 0`), so the handler stores 0 and
prints the success message rather than an error. -/
theorem C2_counterexample :
    initialConfig.ledCount = 4 ∧
    (loopStep ⟨initialConfig, [], []⟩ (fun _ => false) t0 "leds 0").world.cfg.ledCount = 0 ∧
    (loopStep ⟨initialConfig, [], []⟩ (fun _ => false) t0 "leds 0").output =
      ["LED grid for capture: 0"] := by
  decide

/-- C2 amended: for every negative, non-square, or greater-than-64 count
argument the mutation is rejected — the stored activeLedCount keeps its
previous value and an error message is printed — and the stored value is
only ever left unchanged or set to a perfect square ≤ 64. (The amendment
drops 0 from the rejected set: the script accepts `leds 0` and stores 0,
so "positive perfect square" weakens to "perfect square, 0 included".) -/
theorem C2_leds_validation (prev : Nat) (val : Int) :
    ((val < 0 ∨ 64 < val ∨ (∀ m : Nat, (m : Int) * m ≠ val)) →
      (leds_update prev val).1 = prev ∧
      ((leds_update prev val).2 = ["Usage: leds <value>"] ∨
       (leds_update prev val).2 = ["Must be square number ≤ 64."])) ∧
    ((leds_update prev val).1 = prev ∨
      ∃ m : Nat, m ≤ PHYSICAL_GRID_SIZE ∧ (leds_update prev val).1 = m * m) := by
  have hupdate : leds_update prev val =
      if val < 0 then (prev, ["Usage: leds <value>"])
      else if (isqrt val.toNat : Int) * (isqrt val.toNat) = val ∧
          isqrt val.toNat ≤ PHYSICAL_GRID_SIZE then
        (val.toNat, ["LED grid for capture: " ++ toString val])
      else (prev, ["Must be square number ≤ 64."]) := rfl
  rw [hupdate]
  split_ifs with hneg hcond
  · exact ⟨fun _ => ⟨rfl, Or.inl rfl⟩, Or.inl rfl⟩
  · obtain ⟨hsq, hle⟩ := hcond
    have hval : val = ((isqrt val.toNat * isqrt val.toNat : Nat) : Int) := by
      rw [Nat.cast_mul]; exact hsq.symm
    have hle64 : isqrt val.toNat * isqrt val.toNat ≤ 64 := by
      have h8 : isqrt val.toNat ≤ 8 := hle
      calc isqrt val.toNat * isqrt val.toNat ≤ 8 * 8 := Nat.mul_le_mul h8 h8
        _ = 64 := rfl
    refine ⟨fun hinv => absurd hinv ?_, Or.inr ⟨isqrt val.toNat, hle, by omega⟩⟩
    push_neg
    exact ⟨by omega, by omega, ⟨isqrt val.toNat, hsq⟩⟩
  · exact ⟨fun _ => ⟨rfl, Or.inr rfl⟩, Or.inl rfl⟩

/-- Witness for C2 at the concrete invalid input 65 (greater than 64). -/
theorem C2_witness :
    (leds_update 4 65).1 = 4 ∧
    ((leds_update 4 65).2 = ["Usage: leds <value>"] ∨
     (leds_update 4 65).2 = ["Must be square number ≤ 64."]) :=
  (C2_leds_validation 4 65).1 (Or.inr (Or.inl (by decide)))

/-! ### Claim C3: failure semantics of a capture run -/

/-- `runCoords` on a plan whose first camera failure is at `rc`: every
coordinate before `rc` completes its full block and writes its file, `rc`
is lit and logged but writes nothing, and the loop stops at `rc`. -/
theorem runCoords_fail (cfg : Config) (saveDir : String) (camFail : Nat × Nat → Bool)
    (pre post : List (Nat × Nat)) (rc : Nat × Nat)
    (hpre : ∀ c ∈ pre, camFail c = false) (hrc : camFail rc = true) :
    runCoords cfg saveDir camFail (pre ++ rc :: post) =
      ⟨pre.flatMap (coordBlock cfg saveDir) ++ lightEvents cfg rc,
       pre.map (fun c => fileName saveDir c.1 c.2),
       pre.flatMap (fun c => [lightingMsg c, capturedMsg saveDir c]) ++ [lightingMsg rc],
       some rc⟩ := by
  induction pre with
  | nil => simp [runCoords, hrc]
  | cons c cs ih =>
    have hc : camFail c = false := hpre c (List.mem_cons_self c cs)
    have ih2 := ih (fun d hd => hpre d (List.mem_cons_of_mem c hd))
    simp only [List.cons_append, runCoords, hc, Bool.false_eq_true, if_false]
    simp [ih2, coordBlock, List.append_assoc]

/-- `runCoords` with no camera failure along the plan: every coordinate
completes, in order, and nothing fails. -/
theorem runCoords_ok (cfg : Config) (saveDir : String) (camFail : Nat × Nat → Bool)
    (coords : List (Nat × Nat)) (h : ∀ c ∈ coords, camFail c = false) :
    runCoords cfg saveDir camFail coords =
      ⟨coords.flatMap (coordBlock cfg saveDir),
       coords.map (fun c => fileName saveDir c.1 c.2),
       coords.flatMap (fun c => [lightingMsg c, capturedMsg saveDir c]),
       none⟩ := by
  induction coords with
  | nil => simp [runCoords]
  | cons c cs ih =>
    have hc : camFail c = false := h c (List.mem_cons_self c cs)
    have ih2 := ih (fun d hd => h d (List.mem_cons_of_mem c hd))
    simp only [runCoords, hc, Bool.false_eq_true, if_false]
    simp [ih2, coordBlock, List.append_assoc]

/-- `loopStep` on the literal line `capture` takes the capture branch. -/
theorem loopStep_capture_eq (w : World) (camFail : Nat × Nat → Bool) (now : DateTime) :
    loopStep w camFail now "capture" =
      ⟨{ w with
           dirs := (capture_sequence w.cfg w.dirs camFail now).dirs,
           files := w.files ++ (capture_sequence w.cfg w.dirs camFail now).files },
       (match (capture_sequence w.cfg w.dirs camFail now).failed with
        | some _ => Outcome.crash
        | none => Outcome.cont),
       (capture_sequence w.cfg w.dirs camFail now).output,
       (capture_sequence w.cfg w.dirs camFail now).events⟩ := rfl

/-- The world and camera oracle of the concrete failing run used against
C3: a 2×2 plan whose third coordinate (4, 3) fails. -/
def w_run1 : World := ⟨{ initialConfig with folderName := some "run1" }, [], []⟩

/-- Camera oracle failing exactly at coordinate (4, 3). -/
def camFail3 : Nat × Nat → Bool := fun rc => decide (rc = (4, 3))

/-- C3 counterexample: with a 4-coordinate plan and a camera failure on the
3rd coordinate, the run does abort with exactly 2 files on disk — but the
claim's last conjunct fails: the exception escapes the command loop (which
catches only `KeyboardInterrupt`), so the process terminates with a
traceback (`Outcome.crash`) instead of returning to the prompt. -/
theorem C3_counterexample :
    (loopStep w_run1 camFail3 t0 "capture").outcome = Outcome.crash ∧
    Outcome.crash ≠ Outcome.cont ∧
    (loopStep w_run1 camFail3 t0 "capture").world.files =
      ["/home/fpm/camera_capture2/run1/led_r3_c3.jpg",
       "/home/fpm/camera_capture2/run1/led_r3_c4.jpg"] := by
  decide

/-- C3 amended: a camera/file-write error during a capture run aborts the
run immediately at the failing coordinate with no skip or retry — a
failure on the k-th of m coordinates leaves exactly the k−1 files of the
earlier coordinates — and the last line printed before the traceback
identifies the coordinate being attempted; but the exception propagates
past the command loop (which catches only `KeyboardInterrupt`), so the
process terminates instead of returning to the command prompt. -/
theorem C3_abort_semantics (w : World) (camFail : Nat × Nat → Bool) (now : DateTime)
    (pre post : List (Nat × Nat)) (rc : Nat × Nat)
    (hplan : planCoords w.cfg.ledCount = pre ++ rc :: post)
    (hpre : ∀ c ∈ pre, camFail c = false) (hrc : camFail rc = true) :
    (loopStep w camFail now "capture").outcome = Outcome.crash ∧
    (loopStep w camFail now "capture").world.files =
      w.files ++ pre.map (fun c => fileName (resolveSaveDir w.cfg.folderName now) c.1 c.2) ∧
    (loopStep w camFail now "capture").output.getLast? = some (lightingMsg rc) := by
  rw [loopStep_capture_eq]
  have hcap : capture_sequence w.cfg w.dirs camFail now =
      ⟨turn_off_all_leds_events ++
         (pre.flatMap (coordBlock w.cfg (resolveSaveDir w.cfg.folderName now)) ++
           lightEvents w.cfg rc),
       pre.map (fun c => fileName (resolveSaveDir w.cfg.folderName now) c.1 c.2),
       ("Saving images to: " ++ resolveSaveDir w.cfg.folderName now) ::
         (pre.flatMap (fun c =>
            [lightingMsg c, capturedMsg (resolveSaveDir w.cfg.folderName now) c]) ++
          [lightingMsg rc]),
       makedirs w.dirs (resolveSaveDir w.cfg.folderName now),
       some rc⟩ := by
    have hrun := runCoords_fail w.cfg (resolveSaveDir w.cfg.folderName now) camFail
      pre post rc hpre hrc
    simp only [capture_sequence]
    rw [hplan, hrun]
  rw [hcap]
  refine ⟨rfl, rfl, ?_⟩
  show (("Saving images to: " ++ resolveSaveDir w.cfg.folderName now) ::
      (pre.flatMap (fun c =>
         [lightingMsg c, capturedMsg (resolveSaveDir w.cfg.folderName now) c]) ++
       [lightingMsg rc])).getLast? = some (lightingMsg rc)
  rw [← List.cons_append, List.getLast?_concat]

/-- Witness for C3 at the concrete failing run (3rd of 4 coordinates). -/
theorem C3_witness :
    (loopStep w_run1 camFail3 t0 "capture").outcome = Outcome.crash ∧
    (loopStep w_run1 camFail3 t0 "capture").world.files =
      w_run1.files ++ [(3, 3), (3, 4)].map
        (fun c : Nat × Nat =>
          fileName (resolveSaveDir w_run1.cfg.folderName t0) c.1 c.2) ∧
    (loopStep w_run1 camFail3 t0 "capture").output.getLast? =
      some (lightingMsg (4, 3)) :=
  C3_abort_semantics w_run1 camFail3 t0 [(3, 3), (3, 4)] [(4, 4)] (4, 3)
    (by decide) (by decide) (by decide)

/-! ### Claim C4: at most one LED is committed lit at any instant -/

/-- The `get_color` table maps `"off"` to black. -/
theorem get_color_off : get_color "off" = offColor := rfl

/-- The sequence of hardware-committed (pixel buffer, brightness) states a
trace produces: `setPixel`/`setBrightness` update the pending buffer, each
`commit` (`strip.show()`) publishes it. -/
def commitsFrom : List Color → Nat → List Event → List (List Color × Nat)
  | _, _, [] => []
  | px, b, Event.setPixel i c :: es => commitsFrom (px.set i c) b es
  | px, _, Event.setBrightness b2 :: es => commitsFrom px b2 es
  | px, b, Event.commit :: es => (px, b) :: commitsFrom px b es
  | px, b, Event.sleepMs _ :: es => commitsFrom px b es
  | px, b, Event.captureFile _ :: es => commitsFrom px b es

/-- The pending buffer and brightness left behind by a trace. -/
def pendAfter : List Color → Nat → List Event → List Color × Nat
  | px, b, [] => (px, b)
  | px, b, Event.setPixel i c :: es => pendAfter (px.set i c) b es
  | px, _, Event.setBrightness b2 :: es => pendAfter px b2 es
  | px, b, Event.commit :: es => pendAfter px b es
  | px, b, Event.sleepMs _ :: es => pendAfter px b es
  | px, b, Event.captureFile _ :: es => pendAfter px b es

/-- Number of lit (non-black) pixels in a buffer. -/
def litCount (px : List Color) : Nat := px.countP (fun c => decide (c ≠ offColor))

theorem pendAfter_append (l1 l2 : List Event) : ∀ px b,
    pendAfter px b (l1 ++ l2) =
      pendAfter (pendAfter px b l1).1 (pendAfter px b l1).2 l2 := by
  induction l1 with
  | nil => intro px b; simp [pendAfter]
  | cons e es ih => intro px b; cases e <;> simp [pendAfter, ih]

theorem commitsFrom_append (l1 l2 : List Event) : ∀ px b,
    commitsFrom px b (l1 ++ l2) =
      commitsFrom px b l1 ++
        commitsFrom (pendAfter px b l1).1 (pendAfter px b l1).2 l2 := by
  induction l1 with
  | nil => intro px b; simp [commitsFrom, pendAfter]
  | cons e es ih => intro px b; cases e <;> simp [commitsFrom, pendAfter, ih]

/-- The fold of `setPixelColor(i, off)` over an index list. -/
def setOffFold (ixs : List Nat) (px : List Color) : List Color :=
  ixs.foldl (fun l i => l.set i offColor) px

/-- `turn_off_all_leds` with the color table entry inlined. -/
theorem turn_off_events_eq : turn_off_all_leds_events =
    ((List.range LED_COUNT).map (fun i => Event.setPixel i offColor)) ++ [Event.commit] := by
  simp [turn_off_all_leds_events, get_color_off]

theorem pendAfter_setPixels (ixs : List Nat) : ∀ px b,
    pendAfter px b (ixs.map (fun i => Event.setPixel i offColor)) =
      (setOffFold ixs px, b) := by
  induction ixs with
  | nil => intro px b; simp [pendAfter, setOffFold]
  | cons i is ih => intro px b; simp [pendAfter, setOffFold, ih]

theorem commitsFrom_setPixels (ixs : List Nat) : ∀ px b,
    commitsFrom px b (ixs.map (fun i => Event.setPixel i offColor)) = [] := by
  induction ixs with
  | nil => intro px b; simp [commitsFrom]
  | cons i is ih => intro px b; simp [commitsFrom, ih]

theorem setOffFold_map_succ (ixs : List Nat) : ∀ (x : Color) (xs : List Color),
    setOffFold (ixs.map Nat.succ) (x :: xs) = x :: setOffFold ixs xs := by
  induction ixs with
  | nil => intro x xs; simp [setOffFold]
  | cons i is ih => intro x xs; simp [setOffFold, List.set] at ih ⊢; exact ih x (xs.set i offColor)

/-- Setting every index of `range n` to off turns any length-`n` buffer into
the all-off buffer. -/
theorem setOffFold_range : ∀ (n : Nat) (px : List Color), px.length = n →
    setOffFold (List.range n) px = List.replicate n offColor := by
  intro n
  induction n with
  | zero =>
    intro px h
    rw [List.length_eq_zero] at h
    simp [h, setOffFold]
  | succ n ih =>
    intro px h
    cases px with
    | nil => simp at h
    | cons x xs =>
      have hxs : xs.length = n := by simpa using h
      rw [List.range_succ_eq_map]
      have h1 : setOffFold (0 :: (List.range n).map Nat.succ) (x :: xs) =
          setOffFold ((List.range n).map Nat.succ) (offColor :: xs) := by
        simp [setOffFold, List.set]
      rw [h1, setOffFold_map_succ, ih xs hxs, List.replicate_succ]

theorem allOff_length : allOff.length = LED_COUNT := by simp [allOff]

theorem pendAfter_turn_off (px : List Color) (b : Nat) (h : px.length = LED_COUNT) :
    pendAfter px b turn_off_all_leds_events = (allOff, b) := by
  rw [turn_off_events_eq, pendAfter_append, pendAfter_setPixels,
    setOffFold_range LED_COUNT px h]
  simp [pendAfter, allOff]

theorem commitsFrom_turn_off (px : List Color) (b : Nat) (h : px.length = LED_COUNT) :
    commitsFrom px b turn_off_all_leds_events = [(allOff, b)] := by
  rw [turn_off_events_eq, commitsFrom_append, commitsFrom_setPixels, pendAfter_setPixels,
    setOffFold_range LED_COUNT px h]
  simp [commitsFrom, allOff]

/-- `focus_led_on` commits exactly two states: all off, then the single
focus LED at the requested color with the requested brightness. -/
theorem commitsFrom_focus (px : List Color) (b b2 : Nat) (c : String)
    (h : px.length = LED_COUNT) :
    commitsFrom px b (focus_led_on_events c b2) =
      [(allOff, b), (allOff.set FOCUS_LED_INDEX (get_color c), b2)] := by
  unfold focus_led_on_events
  rw [commitsFrom_append, commitsFrom_turn_off px b h, pendAfter_turn_off px b h]
  simp [commitsFrom]

/-- Setting a pixel of an all-equal buffer to the same value changes nothing. -/
theorem set_replicate_self (n i : Nat) (a : Color) :
    (List.replicate n a).set i a = List.replicate n a := by
  induction n generalizing i with
  | zero => simp
  | succ n ih => cases i <;> simp [List.replicate_succ, List.set, ih]

theorem set_allOff (i : Nat) : allOff.set i offColor = allOff :=
  set_replicate_self LED_COUNT i offColor

theorem litCount_replicate (n : Nat) : litCount (List.replicate n offColor) = 0 := by
  unfold litCount
  induction n with
  | zero => rfl
  | succ n ih =>
    rw [List.replicate_succ, List.countP_cons, ih]
    simp

theorem litCount_allOff : litCount allOff = 0 := litCount_replicate LED_COUNT

/-- An all-off buffer with at most one pixel overwritten has at most one
lit pixel. -/
theorem litCount_set_le (n : Nat) : ∀ (i : Nat) (c : Color),
    litCount ((List.replicate n offColor).set i c) ≤ 1 := by
  unfold litCount
  induction n with
  | zero => intro i c; simp
  | succ n ih =>
    intro i c
    have h0 : (List.replicate n offColor).countP (fun c => decide (c ≠ offColor)) = 0 :=
      litCount_replicate n
    cases i with
    | zero =>
      rw [List.replicate_succ]
      show List.countP _ (c :: List.replicate n offColor) ≤ 1
      rw [List.countP_cons, h0]
      split <;> omega
    | succ i =>
      rw [List.replicate_succ]
      show List.countP _ (offColor :: (List.replicate n offColor).set i c) ≤ 1
      rw [List.countP_cons]
      have hic := ih i c
      have hoff : (decide (offColor ≠ offColor)) = false := by decide
      rw [hoff]
      simpa using hic

theorem litCount_set_allOff_le (i : Nat) (c : Color) : litCount (allOff.set i c) ≤ 1 :=
  litCount_set_le LED_COUNT i c

/-- Committed states of one coordinate block starting from an all-off
pending buffer: the single lit coordinate, then all off again. -/
theorem commitsFrom_block (cfg : Config) (saveDir : String) (rc : Nat × Nat)
    (rest : List Event) (b0 : Nat) :
    commitsFrom allOff b0 (lightEvents cfg rc ++ (clearEvents saveDir rc ++ rest)) =
      (allOff.set (index rc.1 rc.2) (get_color cfg.color), cfg.brightness) ::
      (allOff, cfg.brightness) :: commitsFrom allOff cfg.brightness rest := by
  simp [lightEvents, clearEvents, commitsFrom, get_color_off, List.set_set, set_allOff]

theorem pendAfter_block (cfg : Config) (saveDir : String) (rc : Nat × Nat)
    (rest : List Event) (b0 : Nat) :
    pendAfter allOff b0 (lightEvents cfg rc ++ (clearEvents saveDir rc ++ rest)) =
      pendAfter allOff cfg.brightness rest := by
  simp [lightEvents, clearEvents, pendAfter, get_color_off, List.set_set, set_allOff]

/-- Along the per-coordinate loop every committed state has at most one lit
pixel, and when no coordinate fails the pending buffer ends all off. -/
theorem runCoords_commits (cfg : Config) (saveDir : String) (camFail : Nat × Nat → Bool) :
    ∀ (coords : List (Nat × Nat)) (b0 : Nat),
      (∀ s ∈ commitsFrom allOff b0 (runCoords cfg saveDir camFail coords).events,
        litCount s.1 ≤ 1) ∧
      ((runCoords cfg saveDir camFail coords).failed = none →
        (pendAfter allOff b0 (runCoords cfg saveDir camFail coords).events).1 = allOff) := by
  intro coords
  induction coords with
  | nil => intro b0; simp [runCoords, commitsFrom, pendAfter]
  | cons rc rest ih =>
    intro b0
    by_cases hf : camFail rc = true
    · constructor
      · intro s hs
        have hlight : commitsFrom allOff b0 (lightEvents cfg rc) =
            [(allOff.set (index rc.1 rc.2) (get_color cfg.color), cfg.brightness)] := by
          simp [lightEvents, commitsFrom]
        simp only [runCoords, hf, if_true, hlight, List.mem_singleton] at hs
        rw [hs]
        exact litCount_set_allOff_le _ _
      · intro hnone
        simp [runCoords, hf] at hnone
    · have hff : camFail rc = false := by simpa using hf
      have ihb := ih cfg.brightness
      constructor
      · intro s hs
        simp only [runCoords, hff, Bool.false_eq_true, if_false] at hs
        rw [commitsFrom_block] at hs
        simp only [List.mem_cons] at hs
        rcases hs with hs | hs | hs
        · rw [hs]; exact litCount_set_allOff_le _ _
        · rw [hs, litCount_allOff]; omega
        · exact ihb.1 s hs
      · intro hnone
        simp only [runCoords, hff, Bool.false_eq_true, if_false] at hnone ⊢
        rw [pendAfter_block]
        exact ihb.2 hnone

/-- The events of a capture run: all-off, the per-coordinate loop, and on
success the focus restore. -/
theorem capture_events_eq (cfg : Config) (dirs : List String)
    (camFail : Nat × Nat → Bool) (now : DateTime) :
    (capture_sequence cfg dirs camFail now).events =
      turn_off_all_leds_events ++
        ((runCoords cfg (resolveSaveDir cfg.folderName now) camFail
            (planCoords cfg.ledCount)).events ++
          (match (runCoords cfg (resolveSaveDir cfg.folderName now) camFail
              (planCoords cfg.ledCount)).failed with
           | some _ => []
           | none => focus_led_on_events cfg.color cfg.brightness)) := by
  cases h : (runCoords cfg (resolveSaveDir cfg.folderName now) camFail
      (planCoords cfg.ledCount)).failed with
  | none => simp [capture_sequence, h]
  | some rc => simp [capture_sequence, h]

/-- C4: throughout a capture run — with or without a camera failure — every
state committed to the LED strip, from the initial all-off through each
Illuminating/Settling/Exposing/Clearing step and the final focus restore,
has at most one lit LED; in particular the previous LED's commit to off
precedes the next coordinate's lighting commit. -/
theorem C4_single_led_invariant (cfg : Config) (dirs : List String)
    (camFail : Nat × Nat → Bool) (now : DateTime) (px : List Color) (b : Nat)
    (hpx : px.length = LED_COUNT) :
    ∀ s ∈ commitsFrom px b (capture_sequence cfg dirs camFail now).events,
      litCount s.1 ≤ 1 := by
  intro s hs
  rw [capture_events_eq, commitsFrom_append, commitsFrom_turn_off px b hpx,
    pendAfter_turn_off px b hpx, commitsFrom_append] at hs
  simp only [List.cons_append, List.nil_append, List.mem_cons, List.mem_append] at hs
  rcases hs with hs | hs | hs
  · rw [hs]
    show litCount allOff ≤ 1
    rw [litCount_allOff]
    omega
  · exact (runCoords_commits cfg (resolveSaveDir cfg.folderName now) camFail
      (planCoords cfg.ledCount) b).1 s hs
  · cases hfail : (runCoords cfg (resolveSaveDir cfg.folderName now) camFail
        (planCoords cfg.ledCount)).failed with
    | some rc => rw [hfail] at hs; simp [commitsFrom] at hs
    | none =>
      rw [hfail] at hs
      rw [(runCoords_commits cfg (resolveSaveDir cfg.folderName now) camFail
        (planCoords cfg.ledCount) b).2 hfail] at hs
      rw [commitsFrom_focus _ _ _ _ allOff_length] at hs
      simp only [List.mem_cons] at hs
      rcases hs with hs | hs | hs
      · rw [hs]
        show litCount allOff ≤ 1
        rw [litCount_allOff]
        omega
      · rw [hs]; exact litCount_set_allOff_le _ _
      · simp at hs

/-- Witness for C4: the first committed state of the default 2×2 run. -/
theorem C4_witness : litCount allOff ≤ 1 := by
  have h := C4_single_led_invariant initialConfig [] (fun _ => false) t0 allOff
    DEFAULT_BRIGHTNESS allOff_length (allOff, DEFAULT_BRIGHTNESS) (by decide)
  simpa using h

/-! ### Claims C5 and C6: per-coordinate sequencing and produced frames -/

/-- A failure-free `capture_sequence` call, fully evaluated. -/
theorem capture_sequence_ok (cfg : Config) (dirs : List String) (now : DateTime) :
    capture_sequence cfg dirs (fun _ => false) now =
      ⟨turn_off_all_leds_events ++
         ((planCoords cfg.ledCount).flatMap
            (coordBlock cfg (resolveSaveDir cfg.folderName now)) ++
          focus_led_on_events cfg.color cfg.brightness),
       (planCoords cfg.ledCount).map
         (fun c => fileName (resolveSaveDir cfg.folderName now) c.1 c.2),
       ("Saving images to: " ++ resolveSaveDir cfg.folderName now) ::
         ((planCoords cfg.ledCount).flatMap
            (fun c => [lightingMsg c, capturedMsg (resolveSaveDir cfg.folderName now) c]) ++
          ["Capture complete."]),
       makedirs dirs (resolveSaveDir cfg.folderName now),
       none⟩ := by
  have hok := runCoords_ok cfg (resolveSaveDir cfg.folderName now) (fun _ => false)
    (planCoords cfg.ledCount) (fun c _ => rfl)
  simp only [capture_sequence]
  rw [hok]

/-- C5: in a completed capture run the hardware/file trace is exactly, for
each plan coordinate in the plan's row-major order: set brightness, light
the coordinate's LED, commit, settle a fixed 300 ms, capture the image
file, turn that LED off, commit, cool down a fixed 100 ms — strictly
sequentially with no reordering or parallel illumination, preceded by the
whole-grid clear and followed by the focus restore. -/
theorem C5_sequencing (cfg : Config) (dirs : List String) (now : DateTime) :
    (capture_sequence cfg dirs (fun _ => false) now).events =
      turn_off_all_leds_events ++
        ((planCoords cfg.ledCount).flatMap
           (fun rc =>
             [Event.setBrightness cfg.brightness,
              Event.setPixel (index rc.1 rc.2) (get_color cfg.color),
              Event.commit,
              Event.sleepMs 300,
              Event.captureFile (fileName (resolveSaveDir cfg.folderName now) rc.1 rc.2),
              Event.setPixel (index rc.1 rc.2) (get_color "off"),
              Event.commit,
              Event.sleepMs 100]) ++
         focus_led_on_events cfg.color cfg.brightness) := by
  rw [capture_sequence_ok]
  have hblk : coordBlock cfg (resolveSaveDir cfg.folderName now) =
      fun rc =>
        [Event.setBrightness cfg.brightness,
         Event.setPixel (index rc.1 rc.2) (get_color cfg.color),
         Event.commit,
         Event.sleepMs 300,
         Event.captureFile (fileName (resolveSaveDir cfg.folderName now) rc.1 rc.2),
         Event.setPixel (index rc.1 rc.2) (get_color "off"),
         Event.commit,
         Event.sleepMs 100] :=
    funext fun rc => by simp [coordBlock, lightEvents, clearEvents]
  rw [hblk]

/-- `String.data` distributes over append. -/
theorem data_append (s t : String) : (s ++ t).data = s.data ++ t.data := by
  cases s
  cases t
  rfl

/-- A common prefix cancels in a string equation. -/
theorem str_append_cancel_left {a b c : String} (h : a ++ b = a ++ c) : b = c := by
  have hd := congrArg String.data h
  rw [data_append, data_append] at hd
  have hbc := List.append_cancel_left hd
  cases b
  cases c
  exact congrArg String.mk hbc

/-- `os.path.join` with a fixed first component is injective on relative
second components. -/
theorem os_path_join_inj_right (a b1 b2 : String)
    (h1 : b1.data.head? ≠ some '/') (h2 : b2.data.head? ≠ some '/') :
    os_path_join a b1 = os_path_join a b2 → b1 = b2 := by
  unfold os_path_join
  rw [if_neg h1, if_neg h2]
  by_cases ha : a = ""
  · rw [if_pos ha, if_pos ha]
    exact id
  · rw [if_neg ha, if_neg ha]
    by_cases hl : a.data.getLast? = some '/'
    · rw [if_pos hl, if_pos hl]
      exact str_append_cancel_left
    · rw [if_neg hl, if_neg hl]
      exact str_append_cancel_left

theorem fileSuffix_head (r c : Nat) : (fileSuffix r c).data.head? = some 'l' := by
  unfold fileSuffix
  rw [data_append, data_append, data_append, data_append]
  rfl

/-- Every in-grid coordinate appears in the full-grid plan. -/
theorem mem_plan64 : ∀ r < PHYSICAL_GRID_SIZE, ∀ c < PHYSICAL_GRID_SIZE,
    (r, c) ∈ planCoords 64 := by decide

set_option maxRecDepth 10000 in
/-- Distinct in-grid coordinates produce distinct `led_r<row>_c<col>.jpg`
names (single-digit rows and columns). -/
theorem fileSuffix_inj : ∀ p ∈ planCoords 64, ∀ q ∈ planCoords 64,
    fileSuffix p.1 p.2 = fileSuffix q.1 q.2 → p = q := by decide

/-- Distinct in-grid coordinates produce distinct image paths under any
fixed destination directory. -/
theorem fileName_inj_on (saveDir : String) :
    ∀ p ∈ planCoords 64, ∀ q ∈ planCoords 64,
      fileName saveDir p.1 p.2 = fileName saveDir q.1 q.2 → p = q := by
  intro p hp q hq h
  have hs : fileSuffix p.1 p.2 = fileSuffix q.1 q.2 := by
    refine os_path_join_inj_right saveDir _ _ ?_ ?_ h
    · rw [fileSuffix_head]
      simp
    · rw [fileSuffix_head]
      simp
  exact fileSuffix_inj p hp q hq hs

/-- Length, distinctness and bounds of the plan at each valid count. -/
theorem planCoords_valid_facts (count : Nat) (h : count ∈ [1, 4, 9, 16, 25, 36, 49, 64]) :
    (planCoords count).length = count ∧ (planCoords count).Nodup ∧
    (∀ rc ∈ planCoords count, rc.1 < PHYSICAL_GRID_SIZE ∧ rc.2 < PHYSICAL_GRID_SIZE) := by
  simp only [List.mem_cons, List.not_mem_nil, or_false] at h
  rcases h with rfl | rfl | rfl | rfl | rfl | rfl | rfl | rfl <;> decide

/-- Coordinates of a valid plan lie in the full-grid plan. -/
theorem plan_subset_plan64 (count : Nat) (h : count ∈ [1, 4, 9, 16, 25, 36, 49, 64]) :
    ∀ rc ∈ planCoords count, rc ∈ planCoords 64 := by
  intro rc hrc
  obtain ⟨-, -, hbounds⟩ := planCoords_valid_facts count h
  obtain ⟨h1, h2⟩ := hbounds rc hrc
  have := mem_plan64 rc.1 h1 rc.2 h2
  simpa using this

/-- C6: a completed run at a valid count produces exactly `count` frames —
one file per plan coordinate, in plan order, no duplicates and no
omissions — each at `<saveDir>/led_r<row>_c<col>.jpg`, and the map from
plan coordinate to path is injective, so the illumination coordinate is
recoverable from the filename alone. -/
theorem C6_frames (cfg : Config) (dirs : List String) (now : DateTime)
    (h : cfg.ledCount ∈ [1, 4, 9, 16, 25, 36, 49, 64]) :
    (capture_sequence cfg dirs (fun _ => false) now).failed = none ∧
    (capture_sequence cfg dirs (fun _ => false) now).files =
      (planCoords cfg.ledCount).map
        (fun rc => fileName (resolveSaveDir cfg.folderName now) rc.1 rc.2) ∧
    (capture_sequence cfg dirs (fun _ => false) now).files.length = cfg.ledCount ∧
    (capture_sequence cfg dirs (fun _ => false) now).files.Nodup ∧
    (∀ rc ∈ planCoords cfg.ledCount,
      fileName (resolveSaveDir cfg.folderName now) rc.1 rc.2 =
        os_path_join (resolveSaveDir cfg.folderName now)
          ("led_r" ++ toString rc.1 ++ "_c" ++ toString rc.2 ++ ".jpg")) ∧
    (∀ rc1 ∈ planCoords cfg.ledCount, ∀ rc2 ∈ planCoords cfg.ledCount,
      fileName (resolveSaveDir cfg.folderName now) rc1.1 rc1.2 =
        fileName (resolveSaveDir cfg.folderName now) rc2.1 rc2.2 → rc1 = rc2) := by
  obtain ⟨hlen, hnodup, -⟩ := planCoords_valid_facts cfg.ledCount h
  have hsub := plan_subset_plan64 cfg.ledCount h
  have hinj : ∀ rc1 ∈ planCoords cfg.ledCount, ∀ rc2 ∈ planCoords cfg.ledCount,
      fileName (resolveSaveDir cfg.folderName now) rc1.1 rc1.2 =
        fileName (resolveSaveDir cfg.folderName now) rc2.1 rc2.2 → rc1 = rc2 :=
    fun rc1 h1 rc2 h2 =>
      fileName_inj_on (resolveSaveDir cfg.folderName now) rc1 (hsub rc1 h1) rc2 (hsub rc2 h2)
  rw [capture_sequence_ok]
  refine ⟨rfl, rfl, ?_, ?_, fun _ _ => rfl, hinj⟩
  · rw [List.length_map, hlen]
  · exact List.Nodup.map_on hinj hnodup

/-- Witness for C6 at the default configuration (count 4). -/
theorem C6_witness :
    (capture_sequence initialConfig [] (fun _ => false) t0).files.length =
      initialConfig.ledCount ∧
    (capture_sequence initialConfig [] (fun _ => false) t0).files.Nodup :=
  ⟨(C6_frames initialConfig [] t0 (by decide)).2.2.1,
   (C6_frames initialConfig [] t0 (by decide)).2.2.2.1⟩

/-! ### Claim C7: the focus indicator is restored -/

theorem getLast?_cons_append_pair {α : Type} (x u v : α) (l : List α) :
    (x :: (l ++ [u, v])).getLast? = some v := by
  have h : x :: (l ++ [u, v]) = (x :: (l ++ [u])) ++ [v] := by simp
  rw [h, List.getLast?_concat]

/-- C7: after every completed capture run and after every successful
brightness or color mutation, the focus indicator is re-rendered: the
committed LED states end with all-off followed by exactly the fixed
reference LED 27 (= row 3, col 3 of the 8×8 grid) lit at the current color
and brightness, and that color entry is non-black for every selectable
color. -/
theorem C7_focus_restore (cfg : Config) (dirs : List String) (now : DateTime)
    (px : List Color) (b : Nat) (hpx : px.length = LED_COUNT) :
    ((commitsFrom px b (capture_sequence cfg dirs (fun _ => false) now).events).getLast? =
      some (allOff.set FOCUS_LED_INDEX (get_color cfg.color), cfg.brightness)) ∧
    (∀ val : Int, 0 ≤ val → val ≤ 255 →
      (brightness_update cfg.brightness cfg.color val).2.2 =
        focus_led_on_events cfg.color val.toNat ∧
      commitsFrom px b (brightness_update cfg.brightness cfg.color val).2.2 =
        [(allOff, b), (allOff.set FOCUS_LED_INDEX (get_color cfg.color), val.toNat)]) ∧
    (∀ c : String, c = "red" ∨ c = "green" ∨ c = "blue" ∨ c = "white" →
      (color_update cfg.color cfg.brightness c).2.2 =
        focus_led_on_events c cfg.brightness ∧
      commitsFrom px b (color_update cfg.color cfg.brightness c).2.2 =
        [(allOff, b), (allOff.set FOCUS_LED_INDEX (get_color c), cfg.brightness)]) ∧
    (∀ c : String, c = "red" ∨ c = "green" ∨ c = "blue" ∨ c = "white" →
      get_color c ≠ offColor) ∧
    FOCUS_LED_INDEX = index 3 3 := by
  refine ⟨?_, ?_, ?_, ?_, rfl⟩
  · have hfailed : (runCoords cfg (resolveSaveDir cfg.folderName now) (fun _ => false)
        (planCoords cfg.ledCount)).failed = none := by
      rw [runCoords_ok cfg (resolveSaveDir cfg.folderName now) (fun _ => false)
        (planCoords cfg.ledCount) (fun c _ => rfl)]
    rw [capture_events_eq, hfailed, commitsFrom_append, commitsFrom_turn_off px b hpx,
      pendAfter_turn_off px b hpx, commitsFrom_append]
    rw [(runCoords_commits cfg (resolveSaveDir cfg.folderName now) (fun _ => false)
      (planCoords cfg.ledCount) b).2 hfailed]
    rw [commitsFrom_focus _ _ _ _ allOff_length]
    rw [List.singleton_append]
    exact getLast?_cons_append_pair _ _ _ _
  · intro val h1 h2
    have hcond : 0 ≤ val ∧ val ≤ 255 := ⟨h1, h2⟩
    constructor
    · simp [brightness_update, hcond]
    · rw [show (brightness_update cfg.brightness cfg.color val).2.2 =
          focus_led_on_events cfg.color val.toNat by simp [brightness_update, hcond]]
      exact commitsFrom_focus px b val.toNat cfg.color hpx
  · intro c hc
    have hcond : c = "red" ∨ c = "green" ∨ c = "blue" ∨ c = "white" := hc
    constructor
    · simp [color_update, hcond]
    · rw [show (color_update cfg.color cfg.brightness c).2.2 =
          focus_led_on_events c cfg.brightness by simp [color_update, hcond]]
      exact commitsFrom_focus px b cfg.brightness c hpx
  · intro c hc
    rcases hc with rfl | rfl | rfl | rfl <;> decide

/-- Witness for C7 at the default configuration after a full run and a
`brightness 120` mutation. -/
theorem C7_witness :
    ((commitsFrom allOff 0 (capture_sequence initialConfig [] (fun _ => false) t0).events).getLast? =
      some (allOff.set FOCUS_LED_INDEX (get_color initialConfig.color),
        initialConfig.brightness)) ∧
    (brightness_update initialConfig.brightness initialConfig.color 120).2.2 =
      focus_led_on_events initialConfig.color (120 : Int).toNat :=
  ⟨(C7_focus_restore initialConfig [] t0 allOff 0 allOff_length).1,
   ((C7_focus_restore initialConfig [] t0 allOff 0 allOff_length).2.1 120
     (by decide) (by decide)).1⟩

/-! ### Claim C8: destination folder resolution -/

theorem digitChar_ne_slash (n : Nat) : Nat.digitChar n ≠ '/' := by
  by_cases h : n < 16
  · interval_cases n <;> decide
  · have hstar : Nat.digitChar n = '*' := by
      unfold Nat.digitChar
      repeat rw [if_neg (by omega)]
    rw [hstar]
    decide

theorem toDigitsCore_ne_slash : ∀ (fuel n : Nat) (ds : List Char),
    (∀ c ∈ ds, c ≠ '/') → ∀ c ∈ Nat.toDigitsCore 10 fuel n ds, c ≠ '/' := by
  intro fuel
  induction fuel with
  | zero => intro n ds h c hc; exact h c hc
  | succ fuel ih =>
    intro n ds h c hc
    rw [Nat.toDigitsCore] at hc
    by_cases h0 : n / 10 = 0
    · rw [if_pos h0] at hc
      rcases List.mem_cons.mp hc with rfl | hc
      · exact digitChar_ne_slash _
      · exact h c hc
    · rw [if_neg h0] at hc
      refine ih (n / 10) (Nat.digitChar (n % 10) :: ds) ?_ c hc
      intro d hd
      rcases List.mem_cons.mp hd with rfl | hd
      · exact digitChar_ne_slash _
      · exact h d hd

theorem toString_nat_ne_slash (n : Nat) : ∀ c ∈ (toString n).data, c ≠ '/' := by
  have hd : (toString n).data = Nat.toDigits 10 n := rfl
  rw [hd]
  exact toDigitsCore_ne_slash (n + 1) n [] (by simp)

theorem padZero_ne_slash (w n : Nat) : ∀ c ∈ (padZero w n).data, c ≠ '/' := by
  intro c hc
  rw [padZero, data_append] at hc
  rcases List.mem_append.mp hc with hc | hc
  · have := List.eq_of_mem_replicate hc
    subst this
    decide
  · exact toString_nat_ne_slash n c hc

theorem timestamp_ne_slash (t : DateTime) : ∀ c ∈ (timestamp t).data, c ≠ '/' := by
  intro c hc
  rw [timestamp] at hc
  simp only [data_append, List.mem_append] at hc
  rcases hc with ((((((((((hc | hc) | hc) | hc) | hc) | hc) | hc) | hc) | hc) | hc) | hc) <;>
    first
      | exact padZero_ne_slash _ _ c hc
      | (simp only [List.mem_singleton] at hc; subst hc; decide)

theorem head_ne_slash {s : String} (h : ∀ c ∈ s.data, c ≠ '/') :
    s.data.head? ≠ some '/' := by
  cases hd : s.data with
  | nil => simp
  | cons c cs =>
    simp only [List.head?, ne_eq, Option.some.injEq]
    intro hcontra
    exact h c (by rw [hd]; exact List.mem_cons_self c cs) hcontra

/-- C8 counterexample: the folder name is stored verbatim, but an absolute
name is not placed under the base path — `os.path.join` discards the base
when the second component is absolute, and such a name is reachable
through the `folder` command. -/
theorem C8_counterexample :
    (loopStep ⟨initialConfig, [], []⟩ (fun _ => false) t0 "folder /tmp/out").world.cfg.folderName
      = some "/tmp/out" ∧
    resolveSaveDir (some "/tmp/out") t0 = "/tmp/out" ∧
    resolveSaveDir (some "/tmp/out") t0 ≠ base_path ++ "/" ++ "/tmp/out" := by
  decide

/-- C8 amended: at the start of a run the destination is resolved as
follows — a set folder name is used verbatim as the final path component:
under the base path when it is relative, but replacing the base path
entirely when it starts with `/` (os.path.join semantics); with no folder
set, the name is the local time formatted `YYYY-MM-DD_HH-MM-SS` under the
base path; the folder is then created if absent, and a pre-existing folder
is not an error. -/
theorem C8_folder_resolution (name : String) (now : DateTime) (dirs : List String)
    (cfg : Config) :
    (name ≠ "" → name.data.head? ≠ some '/' →
      resolveSaveDir (some name) now = base_path ++ "/" ++ name) ∧
    (name ≠ "" → name.data.head? = some '/' →
      resolveSaveDir (some name) now = name) ∧
    (resolveSaveDir none now = base_path ++ "/" ++ timestamp now) ∧
    ((capture_sequence cfg dirs (fun _ => false) now).dirs =
      makedirs dirs (resolveSaveDir cfg.folderName now)) ∧
    (resolveSaveDir cfg.folderName now ∈ makedirs dirs (resolveSaveDir cfg.folderName now)) ∧
    (resolveSaveDir cfg.folderName now ∈ dirs →
      makedirs dirs (resolveSaveDir cfg.folderName now) = dirs) := by
  refine ⟨?_, ?_, ?_, ?_, ?_, ?_⟩
  · intro h1 h2
    simp only [resolveSaveDir]
    rw [if_pos h1]
    unfold os_path_join
    rw [if_neg h2, if_neg (by decide : ¬(base_path = "")),
      if_neg (by decide : ¬(base_path.data.getLast? = some '/'))]
  · intro h1 h2
    simp only [resolveSaveDir]
    rw [if_pos h1]
    unfold os_path_join
    rw [if_pos h2]
  · simp only [resolveSaveDir]
    unfold os_path_join
    rw [if_neg (head_ne_slash (timestamp_ne_slash now)),
      if_neg (by decide : ¬(base_path = "")),
      if_neg (by decide : ¬(base_path.data.getLast? = some '/'))]
  · rw [capture_sequence_ok]
  · unfold makedirs
    by_cases hmem : resolveSaveDir cfg.folderName now ∈ dirs
    · rw [if_pos hmem]
      exact hmem
    · rw [if_neg hmem]
      exact List.mem_cons_self _ _
  · intro hmem
    unfold makedirs
    rw [if_pos hmem]

/-- Witness for C8 at the concrete relative folder name `run2`. -/
theorem C8_witness :
    resolveSaveDir (some "run2") t0 = base_path ++ "/" ++ "run2" :=
  (C8_folder_resolution "run2" t0 [] initialConfig).1 (by decide) (by decide)

/-! ### Claim C9: malformed and unknown commands -/

/-- C9 counterexample: a command line with too many arguments is not
rejected — `brightness 5 6` silently sets brightness to 5 (the handler
reads only `split()[1]`) and prints no usage hint, so "wrong argument
count ⇒ usage hint and state unchanged" fails as stated. -/
theorem C9_counterexample :
    initialConfig.brightness = 100 ∧
    (loopStep ⟨initialConfig, [], []⟩ (fun _ => false) t0 "brightness 5 6").world.cfg.brightness
      = 5 ∧
    (loopStep ⟨initialConfig, [], []⟩ (fun _ => false) t0 "brightness 5 6").output = [] := by
  decide

/-- Two command words with different first characters cannot both be a
prefix of the same input line. -/
theorem pyStartsWith_head (s p : String) (c : Char) (hp : p.data.head? = some c)
    (h : pyStartsWith s p = true) : s.data.head? = some c := by
  unfold pyStartsWith at h
  cases hpd : p.data with
  | nil =>
    rw [hpd] at hp
    simp at hp
  | cons a as =>
    rw [hpd] at hp h
    simp only [List.head?, Option.some.injEq] at hp
    subst hp
    cases hsd : s.data with
    | nil =>
      rw [hsd] at h
      simp [List.isPrefixOf] at h
    | cons b bs =>
      rw [hsd] at h
      simp only [List.isPrefixOf, Bool.and_eq_true, beq_iff_eq] at h
      exact congrArg some h.1.symm

theorem pyStartsWith_exclusive (s p1 p2 : String) (c1 c2 : Char)
    (h1 : p1.data.head? = some c1) (h2 : p2.data.head? = some c2) (hne : c1 ≠ c2)
    (h : pyStartsWith s p1 = true) : pyStartsWith s p2 = false := by
  by_contra hcon
  rw [Bool.not_eq_false] at hcon
  have ha := pyStartsWith_head s p1 c1 h1 h
  have hb := pyStartsWith_head s p2 c2 h2 hcon
  rw [ha] at hb
  exact hne (Option.some.inj hb)

/-- C9 amended: for a command line dispatched to any of the value-taking
handlers (brightness, leds, exposure, color, folder) whose value is
missing or non-parsable, a usage hint is printed and all configuration
state is unchanged; extra arguments beyond the first are ignored rather
than rejected; an out-of-range brightness / non-positive exposure /
invalid color name is rejected with a message keeping the previous value;
a line matching no handler prefix prints "Unknown command."; and each of
these returns to the prompt (`Outcome.cont`) rather than terminating the
process. -/
theorem C9_malformed_commands (w : World) (camFail : Nat × Nat → Bool) (now : DateTime)
    (ui : String) :
    (pyStartsWith ui "brightness" = true → (pySplit ui).get? 1 = none →
      dispatch w camFail now ui = ⟨w, Outcome.cont, ["Usage: brightness <value>"], []⟩) ∧
    (pyStartsWith ui "brightness" = true → ∀ tok, (pySplit ui).get? 1 = some tok →
      pyInt tok = none →
      dispatch w camFail now ui = ⟨w, Outcome.cont, ["Usage: brightness <value>"], []⟩) ∧
    (pyStartsWith ui "brightness" = true → ∀ tok val, (pySplit ui).get? 1 = some tok →
      pyInt tok = some val → (val < 0 ∨ 255 < val) →
      dispatch w camFail now ui = ⟨w, Outcome.cont, ["Brightness must be 0–255."], []⟩) ∧
    (pyStartsWith ui "leds" = true → (pySplit ui).get? 1 = none →
      dispatch w camFail now ui = ⟨w, Outcome.cont, ["Usage: leds <value>"], []⟩) ∧
    (pyStartsWith ui "leds" = true → ∀ tok, (pySplit ui).get? 1 = some tok →
      pyInt tok = none →
      dispatch w camFail now ui = ⟨w, Outcome.cont, ["Usage: leds <value>"], []⟩) ∧
    (pyStartsWith ui "exposure" = true → (pySplit ui).get? 1 = none →
      dispatch w camFail now ui = ⟨w, Outcome.cont, ["Usage: exposure <μs>"], []⟩) ∧
    (pyStartsWith ui "exposure" = true → ∀ tok, (pySplit ui).get? 1 = some tok →
      pyInt tok = none →
      dispatch w camFail now ui = ⟨w, Outcome.cont, ["Usage: exposure <μs>"], []⟩) ∧
    (pyStartsWith ui "exposure" = true → ∀ tok val, (pySplit ui).get? 1 = some tok →
      pyInt tok = some val → val ≤ 0 →
      dispatch w camFail now ui = ⟨w, Outcome.cont, ["Must be positive."], []⟩) ∧
    (pyStartsWith ui "color" = true → (pySplit ui).get? 1 = none →
      dispatch w camFail now ui = ⟨w, Outcome.cont, ["Usage: color <name>"], []⟩) ∧
    (pyStartsWith ui "color" = true → ∀ val, (pySplit ui).get? 1 = some val →
      ¬(val = "red" ∨ val = "green" ∨ val = "blue" ∨ val = "white") →
      dispatch w camFail now ui = ⟨w, Outcome.cont, ["Invalid color."], []⟩) ∧
    (pyStartsWith ui "folder" = true → ∀ x, pySplit1 ui = [x] →
      dispatch w camFail now ui = ⟨w, Outcome.cont, ["Usage: folder <folder_name>"], []⟩) ∧
    (¬(ui = "exit" ∨ ui = "quit") →
      pyStartsWith ui "brightness" = false → pyStartsWith ui "leds" = false →
      pyStartsWith ui "exposure" = false → pyStartsWith ui "color" = false →
      pyStartsWith ui "folder" = false → ui ≠ "capture" →
      dispatch w camFail now ui = ⟨w, Outcome.cont, ["Unknown command."], []⟩) := by
  have hne_b : pyStartsWith ui "brightness" = true → ¬(ui = "exit" ∨ ui = "quit") := by
    rintro hp (rfl | rfl) <;> exact absurd hp (by decide)
  have hne_l : pyStartsWith ui "leds" = true → ¬(ui = "exit" ∨ ui = "quit") := by
    rintro hp (rfl | rfl) <;> exact absurd hp (by decide)
  have hne_e : pyStartsWith ui "exposure" = true → ¬(ui = "exit" ∨ ui = "quit") := by
    rintro hp (rfl | rfl) <;> exact absurd hp (by decide)
  have hne_c : pyStartsWith ui "color" = true → ¬(ui = "exit" ∨ ui = "quit") := by
    rintro hp (rfl | rfl) <;> exact absurd hp (by decide)
  have hne_f : pyStartsWith ui "folder" = true → ¬(ui = "exit" ∨ ui = "quit") := by
    rintro hp (rfl | rfl) <;> exact absurd hp (by decide)
  refine ⟨?_, ?_, ?_, ?_, ?_, ?_, ?_, ?_, ?_, ?_, ?_, ?_⟩
  · intro hb hget
    simp only [dispatch]
    rw [if_neg (hne_b hb), if_pos hb]
    simp only [hget]
  · intro hb tok hget hint
    simp only [dispatch]
    rw [if_neg (hne_b hb), if_pos hb]
    simp only [hget, hint]
  · intro hb tok val hget hint hval
    have hcond : ¬(0 ≤ val ∧ val ≤ 255) := by omega
    have hbu : brightness_update w.cfg.brightness w.cfg.color val =
        (w.cfg.brightness, ["Brightness must be 0–255."], []) := by
      unfold brightness_update
      rw [if_neg hcond]
    simp only [dispatch]
    rw [if_neg (hne_b hb), if_pos hb]
    simp only [hget, hint, hbu]
  · intro hl hget
    have hxb := pyStartsWith_exclusive ui "leds" "brightness" 'l' 'b'
      (by decide) (by decide) (by decide) hl
    simp only [dispatch]
    rw [if_neg (hne_l hl), if_neg (by simp [hxb]), if_pos hl]
    simp only [hget]
  · intro hl tok hget hint
    have hxb := pyStartsWith_exclusive ui "leds" "brightness" 'l' 'b'
      (by decide) (by decide) (by decide) hl
    simp only [dispatch]
    rw [if_neg (hne_l hl), if_neg (by simp [hxb]), if_pos hl]
    simp only [hget, hint]
  · intro he hget
    have hxb := pyStartsWith_exclusive ui "exposure" "brightness" 'e' 'b'
      (by decide) (by decide) (by decide) he
    have hxl := pyStartsWith_exclusive ui "exposure" "leds" 'e' 'l'
      (by decide) (by decide) (by decide) he
    simp only [dispatch]
    rw [if_neg (hne_e he), if_neg (by simp [hxb]), if_neg (by simp [hxl]), if_pos he]
    simp only [hget]
  · intro he tok hget hint
    have hxb := pyStartsWith_exclusive ui "exposure" "brightness" 'e' 'b'
      (by decide) (by decide) (by decide) he
    have hxl := pyStartsWith_exclusive ui "exposure" "leds" 'e' 'l'
      (by decide) (by decide) (by decide) he
    simp only [dispatch]
    rw [if_neg (hne_e he), if_neg (by simp [hxb]), if_neg (by simp [hxl]), if_pos he]
    simp only [hget, hint]
  · intro he tok val hget hint hval
    have hxb := pyStartsWith_exclusive ui "exposure" "brightness" 'e' 'b'
      (by decide) (by decide) (by decide) he
    have hxl := pyStartsWith_exclusive ui "exposure" "leds" 'e' 'l'
      (by decide) (by decide) (by decide) he
    have heu : exposure_update w.cfg.exposure val = (w.cfg.exposure, ["Must be positive."]) := by
      unfold exposure_update
      rw [if_neg (by omega)]
    simp only [dispatch]
    rw [if_neg (hne_e he), if_neg (by simp [hxb]), if_neg (by simp [hxl]), if_pos he]
    simp only [hget, hint, heu]
  · intro hc hget
    have hxb := pyStartsWith_exclusive ui "color" "brightness" 'c' 'b'
      (by decide) (by decide) (by decide) hc
    have hxl := pyStartsWith_exclusive ui "color" "leds" 'c' 'l'
      (by decide) (by decide) (by decide) hc
    have hxe := pyStartsWith_exclusive ui "color" "exposure" 'c' 'e'
      (by decide) (by decide) (by decide) hc
    simp only [dispatch]
    rw [if_neg (hne_c hc), if_neg (by simp [hxb]), if_neg (by simp [hxl]),
      if_neg (by simp [hxe]), if_pos hc]
    simp only [hget]
  · intro hc val hget hval
    have hxb := pyStartsWith_exclusive ui "color" "brightness" 'c' 'b'
      (by decide) (by decide) (by decide) hc
    have hxl := pyStartsWith_exclusive ui "color" "leds" 'c' 'l'
      (by decide) (by decide) (by decide) hc
    have hxe := pyStartsWith_exclusive ui "color" "exposure" 'c' 'e'
      (by decide) (by decide) (by decide) hc
    have hcu : color_update w.cfg.color w.cfg.brightness val =
        (w.cfg.color, ["Invalid color."], []) := by
      unfold color_update
      rw [if_neg hval]
    simp only [dispatch]
    rw [if_neg (hne_c hc), if_neg (by simp [hxb]), if_neg (by simp [hxl]),
      if_neg (by simp [hxe]), if_pos hc]
    simp only [hget, hcu]
  · intro hf x hsp
    have hxb := pyStartsWith_exclusive ui "folder" "brightness" 'f' 'b'
      (by decide) (by decide) (by decide) hf
    have hxl := pyStartsWith_exclusive ui "folder" "leds" 'f' 'l'
      (by decide) (by decide) (by decide) hf
    have hxe := pyStartsWith_exclusive ui "folder" "exposure" 'f' 'e'
      (by decide) (by decide) (by decide) hf
    have hxc := pyStartsWith_exclusive ui "folder" "color" 'f' 'c'
      (by decide) (by decide) (by decide) hf
    simp only [dispatch]
    rw [if_neg (hne_f hf), if_neg (by simp [hxb]), if_neg (by simp [hxl]),
      if_neg (by simp [hxe]), if_neg (by simp [hxc]), if_pos hf]
    simp only [hsp]
  · intro h0 h1 h2 h3 h4 h5 h6
    simp only [dispatch]
    rw [if_neg h0, if_neg (by simp [h1]), if_neg (by simp [h2]), if_neg (by simp [h3]),
      if_neg (by simp [h4]), if_neg (by simp [h5]), if_neg h6]

/-- Witness for C9 at the concrete line `brightness` with no value. -/
theorem C9_witness :
    dispatch ⟨initialConfig, [], []⟩ (fun _ => false) t0 "brightness" =
      ⟨⟨initialConfig, [], []⟩, Outcome.cont, ["Usage: brightness <value>"], []⟩ :=
  (C9_malformed_commands ⟨initialConfig, [], []⟩ (fun _ => false) t0 "brightness").1
    (by decide) (by decide)

/-! ### Claim C10: input normalization and the no-uppercase invariant -/

/-- No ASCII uppercase letter occurs in the string. -/
def noUpperB (s : String) : Bool :=
  s.data.all (fun c => !(decide (65 ≤ c.toNat) && decide (c.toNat ≤ 90)))

/-- The string-valued configuration fields contain no ASCII uppercase
letter. -/
def cfgNoUpper (cfg : Config) : Prop :=
  noUpperB cfg.color = true ∧ cfg.folderName.all noUpperB = true

theorem lowerChar_noUpper (c : Char) :
    ¬(65 ≤ (lowerChar c).toNat ∧ (lowerChar c).toNat ≤ 90) := by
  unfold lowerChar
  by_cases h : 65 ≤ c.toNat ∧ c.toNat ≤ 90
  · rw [if_pos h]
    have hv : ∀ m < 91, 65 ≤ m →
        ¬(65 ≤ (Char.ofNat (m + 32)).toNat ∧ (Char.ofNat (m + 32)).toNat ≤ 90) := by decide
    exact hv c.toNat (by omega) h.1
  · rw [if_neg h]
    exact h

theorem noUpperB_pyLower (s : String) : noUpperB (pyLower s) = true := by
  unfold noUpperB pyLower
  rw [List.all_eq_true]
  intro c hc
  simp only [List.mem_map] at hc
  obtain ⟨c2, -, rfl⟩ := hc
  have h2 := lowerChar_noUpper c2
  rw [not_and_or] at h2
  simp only [Bool.not_eq_true', Bool.and_eq_false_iff, decide_eq_false_iff_not, not_le]
  rcases h2 with h2 | h2
  · left
    omega
  · right
    omega

theorem noUpperB_of_subset {s t : String} (hsub : ∀ c ∈ s.data, c ∈ t.data)
    (ht : noUpperB t = true) : noUpperB s = true := by
  unfold noUpperB at ht ⊢
  rw [List.all_eq_true] at ht ⊢
  exact fun c hc => ht c (hsub c hc)

theorem dropWS_subset : ∀ (cs : List Char), ∀ c ∈ dropWS cs, c ∈ cs := by
  intro cs
  induction cs with
  | nil => simp [dropWS]
  | cons x xs ih =>
    intro c hc
    rw [dropWS] at hc
    by_cases hx : x.isWhitespace
    · rw [if_pos hx] at hc
      exact List.mem_cons_of_mem x (ih c hc)
    · rw [if_neg hx] at hc
      exact hc

theorem pyStrip_subset (s : String) : ∀ c ∈ (pyStrip s).data, c ∈ s.data := by
  intro c hc
  have h1 : c ∈ (dropWS ((dropWS s.data).reverse)).reverse := hc
  rw [List.mem_reverse] at h1
  have h2 := dropWS_subset _ c h1
  rw [List.mem_reverse] at h2
  exact dropWS_subset _ c h2

theorem pySplit1_subset (s : String) : ∀ x ∈ pySplit1 s, ∀ c ∈ x.data, c ∈ s.data := by
  intro x hx c hc
  unfold pySplit1 at hx
  cases hd : dropWS s.data with
  | nil => rw [hd] at hx; simp at hx
  | cons a as =>
    rw [hd] at hx
    have hsub : ∀ d ∈ a :: as, d ∈ s.data := by
      intro d hdmem
      rw [← hd] at hdmem
      exact dropWS_subset _ d hdmem
    simp only at hx
    by_cases hrest : dropWS ((a :: as).dropWhile (fun d => !d.isWhitespace)) = []
    · rw [if_pos hrest] at hx
      simp only [List.mem_singleton] at hx
      subst hx
      have hc2 : c ∈ (a :: as).takeWhile (fun d => !d.isWhitespace) := hc
      exact hsub c ((List.takeWhile_sublist _).subset hc2)
    · rw [if_neg hrest] at hx
      simp only [List.mem_cons, List.not_mem_nil, or_false] at hx
      rcases hx with rfl | rfl
      · have hc2 : c ∈ (a :: as).takeWhile (fun d => !d.isWhitespace) := hc
        exact hsub c ((List.takeWhile_sublist _).subset hc2)
      · have hc2 : c ∈ dropWS ((a :: as).dropWhile (fun d => !d.isWhitespace)) := hc
        have h1 := dropWS_subset _ c hc2
        exact hsub c ((List.dropWhile_sublist _).subset h1)

/-- C10: every command line is lowercased and stripped before parsing
(`loopStep` literally dispatches on `pyLower (pyStrip raw)`); hence,
starting from the initial configuration, the stored string-valued
configuration never contains an ASCII uppercase character — in particular
`folder MyPhotos` stores `myphotos`, the lowercased, whitespace-trimmed
form of what the operator typed, not the verbatim string. -/
theorem C10_lowercase_invariant (w : World) (camFail : Nat × Nat → Bool)
    (now : DateTime) (raw : String) :
    (loopStep w camFail now raw = dispatch w camFail now (pyLower (pyStrip raw))) ∧
    cfgNoUpper initialConfig ∧
    (cfgNoUpper w.cfg → cfgNoUpper (loopStep w camFail now raw).world.cfg) ∧
    (loopStep ⟨initialConfig, [], []⟩ (fun _ => false) t0
        "  Folder   MyPhotos  ").world.cfg.folderName = some "myphotos" := by
  refine ⟨rfl, ⟨by decide, by decide⟩, ?_, by decide⟩
  intro h
  have huiNo : noUpperB (pyLower (pyStrip raw)) = true := noUpperB_pyLower (pyStrip raw)
  show cfgNoUpper (dispatch w camFail now (pyLower (pyStrip raw))).world.cfg
  generalize hui : pyLower (pyStrip raw) = ui at huiNo ⊢
  simp only [dispatch]
  split_ifs with h1 h2 h3 h4 h5 h6 h7
  · exact h
  · cases hg : (pySplit ui).get? 1 with
    | none => exact h
    | some tok =>
      simp only []
      cases hp : pyInt tok with
      | none => exact h
      | some val => exact ⟨h.1, h.2⟩
  · cases hg : (pySplit ui).get? 1 with
    | none => exact h
    | some tok =>
      simp only []
      cases hp : pyInt tok with
      | none => exact h
      | some val => exact ⟨h.1, h.2⟩
  · cases hg : (pySplit ui).get? 1 with
    | none => exact h
    | some tok =>
      simp only []
      cases hp : pyInt tok with
      | none => exact h
      | some val => exact ⟨h.1, h.2⟩
  · cases hg : (pySplit ui).get? 1 with
    | none => exact h
    | some val =>
      by_cases hval : val = "red" ∨ val = "green" ∨ val = "blue" ∨ val = "white"
      · have hcu : (color_update w.cfg.color w.cfg.brightness val).1 = val := by
          unfold color_update
          rw [if_pos hval]
        refine ⟨?_, h.2⟩
        show noUpperB (color_update w.cfg.color w.cfg.brightness val).1 = true
        rw [hcu]
        rcases hval with rfl | rfl | rfl | rfl <;> decide
      · have hcu : (color_update w.cfg.color w.cfg.brightness val).1 = w.cfg.color := by
          unfold color_update
          rw [if_neg hval]
        refine ⟨?_, h.2⟩
        show noUpperB (color_update w.cfg.color w.cfg.brightness val).1 = true
        rw [hcu]
        exact h.1
  · cases hsp : pySplit1 ui with
    | nil => exact h
    | cons x rest =>
      cases rest with
      | nil => exact h
      | cons y tail =>
        cases tail with
        | nil =>
          simp only []
          by_cases hne2 : pyStrip y ≠ ""
          · rw [if_pos hne2]
            refine ⟨h.1, ?_⟩
            show noUpperB (pyStrip y) = true
            refine noUpperB_of_subset ?_ huiNo
            intro c hc
            have h1 := pyStrip_subset y c hc
            exact pySplit1_subset ui y (by rw [hsp]; simp) c h1
          · rw [if_neg hne2]
            exact h
        | cons z tail2 => exact h
  · exact h
  · exact h

/-- Witness for C10: the invariant applied at the initial configuration
and the line `color RED` (which normalizes to a valid color). -/
theorem C10_witness :
    cfgNoUpper (loopStep ⟨initialConfig, [], []⟩ (fun _ => false) t0
      "color RED").world.cfg :=
  (C10_lowercase_invariant ⟨initialConfig, [], []⟩ (fun _ => false) t0 "color RED").2.2.1
    ⟨by decide, by decide⟩

end CaptureModel
